import Mathlib

set_option maxRecDepth 16384

/-!
Verification of the display-information server core
(crates/rmcp-display/src/lib.rs): the pure text renderer for display
records, the three tool operations, and their error paths.

Modelling conventions:
* `u32` and mm fields are `Nat` / `Int` as in the source struct; `i32`
  coordinates are `Int`.
* `f32` fields (`frequency`, `scale_factor`, `rotation`) are idealized as
  exact rationals; every finite `f32` value is a rational, and the Rust
  comparisons `> 0.0`, `!= 1.0`, `!= 0.0` are the corresponding rational
  comparisons.
* Rust's float formatting with zero or one decimal digit rounds the exact
  value of the float to nearest, ties to even; this is modelled by
  `roundHalfEven` and, for the diagonal computation, by `diagTenths`.
* The external enumeration facility (crate `display_info`) is modelled as
  an explicit `Except`-valued argument of each operation.
-/

/-- One display record as returned by the enumeration facility, restricted
to the fields the renderer reads. Mirrors `display_info::DisplayInfo`. -/
structure DisplayInfo where
  name : String
  friendly_name : String
  x : Int
  y : Int
  width : Nat
  height : Nat
  width_mm : Int
  height_mm : Int
  rotation : ℚ
  scale_factor : ℚ
  frequency : ℚ
  is_primary : Bool

/-- Round a rational to the nearest integer, ties to even: the rounding
applied by Rust float formatting with zero decimal digits. -/
def roundHalfEven (q : ℚ) : ℤ :=
  if q - ⌊q⌋ < 1/2 then ⌊q⌋
  else if 1/2 < q - ⌊q⌋ then ⌊q⌋ + 1
  else if ⌊q⌋ % 2 = 0 then ⌊q⌋ else ⌊q⌋ + 1

/-- Truncation toward zero, the semantics of Rust's `as i32` cast on the
value of a float (saturation and NaN aside, which the rational idealization
cannot express). -/
def ratTruncate (q : ℚ) : ℤ :=
  if 0 ≤ q then ⌊q⌋ else ⌈q⌉

/-- Rendering of a rational with zero decimal digits, Rust `{:.0}`:
sign of the value followed by the rounded magnitude. -/
def fmtDotZero (q : ℚ) : String :=
  (if q < 0 then "-" else "") ++ toString (roundHalfEven |q|)

/-- The diagonal of a display whose squared size in mm is `S`, expressed in
tenths of an inch and rounded to nearest. Models
`((w.pow(2) + h.pow(2)) as f32).sqrt() / 25.4` rendered with `{:.1}`,
with the `f32` arithmetic idealized as exact: the rendered value is the
nearest integer to `10 * sqrt S / 25.4 = sqrt (10000 * S) / 254`
(ties cannot occur, see `diagTenths_nearest`). -/
def diagTenths (S : Nat) : Nat :=
  (Nat.sqrt (10000 * S) + 127) / 254

/-- Rendering of a nonnegative tenths count as a one-decimal number,
Rust `{:.1}` on the corresponding value. -/
def fmtTenths (t : Nat) : String :=
  toString (t / 10) ++ "." ++ toString (t % 10)

/-- Header line of `format_single_display` (source lines 47-53):
`friendly_name` if non-empty else `name`, then `" (primary)"` iff
`is_primary`, then a newline. -/
def headerPart (d : DisplayInfo) : String :=
  (if d.friendly_name = "" then d.name else d.friendly_name) ++
    (if d.is_primary then " (primary)" else "") ++ "\n"

/-- Resolution line of `format_single_display` (source line 56). -/
def resolutionPart (d : DisplayInfo) : String :=
  "  Resolution: " ++ toString d.width ++ "x" ++ toString d.height ++ "\n"

/-- Position line of `format_single_display` (source line 57). -/
def positionPart (d : DisplayInfo) : String :=
  "  Position: (" ++ toString d.x ++ ", " ++ toString d.y ++ ")\n"

/-- Physical-size line of `format_single_display` (source lines 60-67),
emitted only when both mm dimensions are positive. -/
def physicalPart (d : DisplayInfo) : String :=
  if 0 < d.width_mm ∧ 0 < d.height_mm then
    "  Physical: " ++ toString d.width_mm ++ "mm x " ++ toString d.height_mm ++
      "mm (~" ++ fmtTenths (diagTenths (d.width_mm * d.width_mm + d.height_mm * d.height_mm).toNat) ++
      "\")\n"
  else ""

/-- Refresh line of `format_single_display` (source lines 70-72). -/
def refreshPart (d : DisplayInfo) : String :=
  if 0 < d.frequency then "  Refresh: " ++ fmtDotZero d.frequency ++ "Hz\n" else ""

/-- Scale line of `format_single_display` (source lines 75-77). -/
def scalePart (d : DisplayInfo) : String :=
  if d.scale_factor ≠ 1 then "  Scale: " ++ fmtDotZero (d.scale_factor * 100) ++ "%\n" else ""

/-- Rotation line of `format_single_display` (source lines 80-82). -/
def rotationPart (d : DisplayInfo) : String :=
  if d.rotation ≠ 0 then "  Rotation: " ++ toString (ratTruncate d.rotation) ++ "°\n" else ""

/-- The single-display renderer, `DisplayServer::format_single_display`
(source lines 44-85): the concatenation of the seven line groups in source
order. -/
def format_single_display (d : DisplayInfo) : String :=
  headerPart d ++ resolutionPart d ++ positionPart d ++ physicalPart d ++
    refreshPart d ++ scalePart d ++ rotationPart d

/-- The enumerate loop of `format_display_info` (source lines 95-99),
started at 0-based index `i`: one `"Display i+1: "` block per record,
each followed by an extra newline. -/
def displayEntries : Nat → List DisplayInfo → String
  | _, [] => ""
  | i, d :: rest =>
    ("Display " ++ toString (i + 1) ++ ": " ++ format_single_display d ++ "\n") ++
      displayEntries (i + 1) rest

/-- The list renderer, `DisplayServer::format_display_info` (source lines
87-103): fixed preamble, then either the empty-list message or the indexed
blocks followed by the count line. -/
def format_display_info (ds : List DisplayInfo) : String :=
  if ds.isEmpty then "Display Information:\n\n" ++ "No displays detected.\n"
  else
    "Display Information:\n\n" ++ displayEntries 0 ds ++
      ("Total displays: " ++ toString ds.length ++ "\n")

/-- Concatenation of a list of strings in order. -/
def concatStrings : List String → String
  | [] => ""
  | s :: rest => s ++ concatStrings rest

/-- The non-empty list rendering as the specification words it: prefix,
then for each record at 1-based index i in input order a
`"Display i: "` block (single-display rendering then a blank line),
then the total count line. -/
def listRenderSpec (ds : List DisplayInfo) : String :=
  "Display Information:\n\n" ++
    concatStrings (ds.enum.map fun p =>
      "Display " ++ toString (p.1 + 1) ++ ": " ++ format_single_display p.2 ++ "\n") ++
    ("Total displays: " ++ toString ds.length ++ "\n")

/-- The string `s` begins with the string `p`. -/
def strBeginsWith (s p : String) : Prop :=
  ∃ r, s = p ++ r

/-- The string `pat` occurs contiguously inside the string `s`. -/
def containsSub (s pat : String) : Prop :=
  ∃ p q, s = p ++ pat ++ q

theorem strBeginsWith_iff (s p : String) : strBeginsWith s p ↔ p.data <+: s.data := by
  constructor
  · rintro ⟨r, rfl⟩
    exact ⟨r.data, (String.data_append p r).symm⟩
  · rintro ⟨t, ht⟩
    refine ⟨String.mk t, ?_⟩
    apply String.ext
    rw [String.data_append]
    exact ht.symm

theorem containsSub_iff (s pat : String) : containsSub s pat ↔ pat.data <:+: s.data := by
  constructor
  · rintro ⟨p, q, rfl⟩
    exact ⟨p.data, q.data, by rw [String.data_append, String.data_append]⟩
  · rintro ⟨p, q, hpq⟩
    refine ⟨String.mk p, String.mk q, ?_⟩
    apply String.ext
    rw [String.data_append, String.data_append]
    exact hpq.symm

/-- C3: the empty list renders to exactly the fixed message, and the count
line does not occur in it. -/
theorem empty_list_render :
    format_display_info [] = "Display Information:\n\nNo displays detected.\n" ∧
      ¬ containsSub (format_display_info []) "Total displays" := by
  constructor
  · rfl
  · rw [containsSub_iff]
    decide

theorem format_single_display_assoc (d : DisplayInfo) :
    format_single_display d =
      headerPart d ++ (resolutionPart d ++ (positionPart d ++ (physicalPart d ++
        (refreshPart d ++ (scalePart d ++ rotationPart d))))) := by
  simp [format_single_display, String.append_assoc]

/-- C2: the rendering of a record starts with a header line consisting of
`friendly_name` when non-empty and `name` otherwise, then the literal
`" (primary)"` exactly when `is_primary` holds, then a newline. -/
theorem header_line_spec (d : DisplayInfo) :
    ∃ t, format_single_display d =
        (if d.friendly_name = "" then d.name else d.friendly_name) ++
          (if d.is_primary then " (primary)" else "") ++ "\n" ++ t ∧
      ((if d.is_primary then " (primary)" else "") = " (primary)" ↔ d.is_primary = true) := by
  refine ⟨resolutionPart d ++ (positionPart d ++ (physicalPart d ++
    (refreshPart d ++ (scalePart d ++ rotationPart d)))), ?_, ?_⟩
  · rw [format_single_display_assoc, headerPart]
  · cases d.is_primary <;> simp

theorem endsNl_append (s t : String) (hs : ∃ e, s = e ++ "\n")
    (ht : t = "" ∨ ∃ e, t = e ++ "\n") : ∃ e, s ++ t = e ++ "\n" := by
  rcases ht with rfl | ⟨e, rfl⟩
  · rw [String.append_empty]; exact hs
  · exact ⟨s ++ e, by rw [String.append_assoc]⟩

theorem headerPart_endsNl (d : DisplayInfo) : ∃ e, headerPart d = e ++ "\n" :=
  ⟨(if d.friendly_name = "" then d.name else d.friendly_name) ++
    (if d.is_primary then " (primary)" else ""), by rw [headerPart, String.append_assoc]⟩

theorem resolutionPart_endsNl (d : DisplayInfo) : ∃ e, resolutionPart d = e ++ "\n" :=
  ⟨"  Resolution: " ++ toString d.width ++ "x" ++ toString d.height, rfl⟩

theorem positionPart_endsNl (d : DisplayInfo) : ∃ e, positionPart d = e ++ "\n" :=
  ⟨"  Position: (" ++ toString d.x ++ ", " ++ toString d.y ++ ")", by
    rw [positionPart, show (")\n" : String) = ")" ++ "\n" from rfl]
    simp [String.append_assoc]⟩

theorem physicalPart_endsNl (d : DisplayInfo) :
    physicalPart d = "" ∨ ∃ e, physicalPart d = e ++ "\n" := by
  rw [physicalPart]
  split_ifs with h
  · exact Or.inr ⟨"  Physical: " ++ toString d.width_mm ++ "mm x " ++ toString d.height_mm ++
      "mm (~" ++ fmtTenths (diagTenths (d.width_mm * d.width_mm + d.height_mm * d.height_mm).toNat) ++
      "\")", by rw [show ("\")\n" : String) = "\")" ++ "\n" from rfl]; simp [String.append_assoc]⟩
  · exact Or.inl rfl

theorem refreshPart_endsNl (d : DisplayInfo) :
    refreshPart d = "" ∨ ∃ e, refreshPart d = e ++ "\n" := by
  rw [refreshPart]
  split_ifs with h
  · exact Or.inr ⟨"  Refresh: " ++ fmtDotZero d.frequency ++ "Hz", by
      rw [show ("Hz\n" : String) = "Hz" ++ "\n" from rfl]; simp [String.append_assoc]⟩
  · exact Or.inl rfl

theorem scalePart_endsNl (d : DisplayInfo) :
    scalePart d = "" ∨ ∃ e, scalePart d = e ++ "\n" := by
  rw [scalePart]
  split_ifs with h
  · exact Or.inr ⟨"  Scale: " ++ fmtDotZero (d.scale_factor * 100) ++ "%", by
      rw [show ("%\n" : String) = "%" ++ "\n" from rfl]; simp [String.append_assoc]⟩
  · exact Or.inl rfl

theorem rotationPart_endsNl (d : DisplayInfo) :
    rotationPart d = "" ∨ ∃ e, rotationPart d = e ++ "\n" := by
  rw [rotationPart]
  split_ifs with h
  · exact Or.inr ⟨"  Rotation: " ++ toString (ratTruncate d.rotation) ++ "°", by
      rw [show ("°\n" : String) = "°" ++ "\n" from rfl]; simp [String.append_assoc]⟩
  · exact Or.inl rfl

theorem format_single_display_endsNl (d : DisplayInfo) :
    ∃ e, format_single_display d = e ++ "\n" := by
  rw [format_single_display]
  exact endsNl_append _ _
    (endsNl_append _ _
      (endsNl_append _ _
        (endsNl_append _ _
          (endsNl_append _ _
            (endsNl_append _ _ (headerPart_endsNl d) (Or.inr (resolutionPart_endsNl d)))
            (Or.inr (positionPart_endsNl d)))
          (physicalPart_endsNl d))
        (refreshPart_endsNl d))
      (scalePart_endsNl d))
    (rotationPart_endsNl d)

/-- C10: every record renders as a header line, a Resolution line and a
Position line (each newline-terminated) followed by the optional lines, so
the rendering always ends with a newline; with both identifiers empty and
`is_primary` false the header line is a bare newline. -/
theorem line_structure (d : DisplayInfo) :
    ∃ hb rb pb t,
      format_single_display d =
          (hb ++ "\n") ++ ((rb ++ "\n") ++ ((pb ++ "\n") ++ t)) ∧
        (∃ e, format_single_display d = e ++ "\n") ∧
        (d.name = "" → d.friendly_name = "" → d.is_primary = false → hb = "") := by
  refine ⟨(if d.friendly_name = "" then d.name else d.friendly_name) ++
      (if d.is_primary then " (primary)" else ""),
    "  Resolution: " ++ toString d.width ++ "x" ++ toString d.height,
    "  Position: (" ++ toString d.x ++ ", " ++ toString d.y ++ ")",
    physicalPart d ++ (refreshPart d ++ (scalePart d ++ rotationPart d)), ?_, ?_, ?_⟩
  · rw [format_single_display_assoc, headerPart, resolutionPart, positionPart,
      show (")\n" : String) = ")" ++ "\n" from rfl]
    simp [String.append_assoc]
  · exact format_single_display_endsNl d
  · intro hn hf hp
    rw [hn, hf, hp]
    simp

/-- A nearest-integer rounding: `roundHalfEven` differs from its argument
by at most one half. -/
theorem roundHalfEven_close (q : ℚ) : |(roundHalfEven q : ℚ) - q| ≤ 1/2 := by
  have h1 : ((⌊q⌋ : ℤ) : ℚ) ≤ q := Int.floor_le q
  have h2 : q < ((⌊q⌋ : ℤ) : ℚ) + 1 := Int.lt_floor_add_one q
  rw [roundHalfEven, abs_le]
  split_ifs with hA hB hC <;> push_cast <;> constructor <;> linarith

/-- Truncation toward zero: magnitude is the floor of the magnitude, and the
sign is preserved. -/
theorem ratTruncate_trunc (q : ℚ) :
    |(ratTruncate q : ℚ)| ≤ |q| ∧ |q| < |(ratTruncate q : ℚ)| + 1 ∧
      (0 ≤ q → 0 ≤ ratTruncate q) ∧ (q ≤ 0 → ratTruncate q ≤ 0) := by
  rw [ratTruncate]
  split_ifs with h
  · have hf : (0 : ℤ) ≤ ⌊q⌋ := Int.floor_nonneg.mpr h
    have h1 : ((⌊q⌋ : ℤ) : ℚ) ≤ q := Int.floor_le q
    have h2 : q < ((⌊q⌋ : ℤ) : ℚ) + 1 := Int.lt_floor_add_one q
    have hfq : (0 : ℚ) ≤ ((⌊q⌋ : ℤ) : ℚ) := by exact_mod_cast hf
    rw [abs_of_nonneg h, abs_of_nonneg hfq]
    refine ⟨h1, h2, fun _ => hf, fun hq => ?_⟩
    have : q = 0 := le_antisymm hq h
    rw [this] at *
    simp
  · push_neg at h
    have hc : ⌈q⌉ ≤ (0 : ℤ) := by
      refine Int.ceil_le.mpr ?_
      push_cast
      exact h.le
    have h1 : q ≤ ((⌈q⌉ : ℤ) : ℚ) := Int.le_ceil q
    have h2 : ((⌈q⌉ : ℤ) : ℚ) < q + 1 := Int.ceil_lt_add_one q
    have hcq : ((⌈q⌉ : ℤ) : ℚ) ≤ 0 := by exact_mod_cast hc
    rw [abs_of_neg h, abs_of_nonpos hcq]
    refine ⟨by linarith, by linarith, fun hq => absurd hq (not_le.mpr h), fun _ => hc⟩

/-- Rendering with zero decimals of a positive value is the decimal form of
its nearest-ties-to-even integer rounding. -/
theorem fmtDotZero_pos (q : ℚ) (h : 0 < q) :
    fmtDotZero q = toString (roundHalfEven q) := by
  rw [fmtDotZero, if_neg (not_lt.mpr h.le), abs_of_pos h]
  simp

theorem displayEntries_eq_concat (ds : List DisplayInfo) : ∀ i,
    displayEntries i ds = concatStrings ((List.enumFrom i ds).map fun p =>
      "Display " ++ toString (p.1 + 1) ++ ": " ++ format_single_display p.2 ++ "\n") := by
  induction ds with
  | nil => intro i; rfl
  | cons d rest ih =>
    intro i
    simp only [displayEntries, List.enumFrom, List.map, concatStrings, ih]

/-- C1: for a non-empty list, the rendering is the fixed preamble, then for
each record at 1-based index i in input order the block
"Display i: " followed by the single-display rendering and a blank line,
then the total count line. -/
theorem list_render_matches_spec (ds : List DisplayInfo) (h : ds ≠ []) :
    format_display_info ds = listRenderSpec ds := by
  cases ds with
  | nil => exact absurd rfl h
  | cons d rest =>
    rw [format_display_info, listRenderSpec, if_neg (by simp)]
    rw [displayEntries_eq_concat, show List.enum (d :: rest) = List.enumFrom 0 (d :: rest) from rfl]

def sampleA : DisplayInfo :=
  { name := "DISP1", friendly_name := "", x := 0, y := 0, width := 1920, height := 1080,
    width_mm := 0, height_mm := 0, rotation := 0, scale_factor := 1, frequency := 0,
    is_primary := true }

def sampleB : DisplayInfo :=
  { name := "X", friendly_name := "Main", x := -100, y := 50, width := 800, height := 600,
    width_mm := 0, height_mm := 0, rotation := 0, scale_factor := 1, frequency := 0,
    is_primary := false }

theorem list_render_matches_spec_witness :
    format_display_info [sampleA, sampleB] = listRenderSpec [sampleA, sampleB] :=
  list_render_matches_spec [sampleA, sampleB] (by simp)

/-- C9: rendering is a pure function of the record values alone - equal
inputs produce equal output text, for single records and for lists. -/
theorem render_deterministic (d d' : DisplayInfo) (ds ds' : List DisplayInfo)
    (h1 : d = d') (h2 : ds = ds') :
    format_single_display d = format_single_display d' ∧
      format_display_info ds = format_display_info ds' := by
  rw [h1, h2]
  exact ⟨rfl, rfl⟩

theorem render_deterministic_witness :
    format_single_display sampleA = format_single_display sampleA ∧
      format_display_info [sampleA] = format_display_info [sampleA] :=
  render_deterministic sampleA sampleA [sampleA] [sampleA] rfl rfl

/-- The tenths value rendered for the physical diagonal is within half a
tenth of the exact value `sqrt S / 25.4` inches: `diagTenths` is a
nearest-integer rounding of ten times the diagonal. -/
theorem diagTenths_nearest (S : ℕ) :
    |((diagTenths S : ℕ) : ℝ) / 10 - Real.sqrt S / 25.4| ≤ 1/20 := by
  rw [diagTenths]
  set r : ℕ := Nat.sqrt (10000 * S) with hr
  set t : ℕ := (r + 127) / 254 with ht
  have hd1 : 254 * t ≤ r + 127 := by omega
  have hd2 : r ≤ 254 * t + 126 := by omega
  have h1 : (r : ℝ) ≤ Real.sqrt ((10000 * S : ℕ) : ℝ) := Real.nat_sqrt_le_real_sqrt
  have h2 : Real.sqrt ((10000 * S : ℕ) : ℝ) < r + 1 := Real.real_sqrt_lt_nat_sqrt_succ
  have hS : Real.sqrt ((10000 * S : ℕ) : ℝ) = 100 * Real.sqrt S := by
    rw [show ((10000 * S : ℕ) : ℝ) = 10000 * (S : ℝ) by push_cast; ring,
      Real.sqrt_mul (by norm_num) ,
      show Real.sqrt 10000 = 100 by
        rw [show (10000 : ℝ) = 100 ^ 2 by norm_num, Real.sqrt_sq (by norm_num : (0:ℝ) ≤ 100)]]
  rw [hS] at h1 h2
  have hc1 : (254 * t : ℝ) ≤ (r : ℝ) + 127 := by exact_mod_cast hd1
  have hc2 : (r : ℝ) ≤ 254 * t + 126 := by exact_mod_cast hd2
  have key : |100 * Real.sqrt S - 254 * (t : ℝ)| ≤ 127 := by
    rw [abs_le]
    constructor
    · linarith
    · linarith
  have heq : ((t : ℝ)) / 10 - Real.sqrt S / 25.4 = -(100 * Real.sqrt S - 254 * (t : ℝ)) / 2540 := by
    norm_num
    ring
  rw [heq, abs_div, abs_neg, abs_of_pos (by norm_num : (0:ℝ) < 2540)]
  linarith [key]

/-- C4 (amended): the physical-size line appears exactly when both mm
dimensions are positive, and the printed one-decimal diagonal is the
nearest tenth of `sqrt (w^2 + h^2) / 25.4` inches. -/
theorem physical_line_spec (d : DisplayInfo) :
    ∃ post, format_single_display d =
        headerPart d ++ resolutionPart d ++ positionPart d ++
          ((if 0 < d.width_mm ∧ 0 < d.height_mm then
              "  Physical: " ++ toString d.width_mm ++ "mm x " ++ toString d.height_mm ++
                "mm (~" ++
                fmtTenths (diagTenths (d.width_mm * d.width_mm + d.height_mm * d.height_mm).toNat) ++
                "\")\n"
            else "") ++ post) ∧
      post = refreshPart d ++ scalePart d ++ rotationPart d ∧
      |((diagTenths ((d.width_mm * d.width_mm + d.height_mm * d.height_mm).toNat) : ℕ) : ℝ) / 10 -
          Real.sqrt (((d.width_mm * d.width_mm + d.height_mm * d.height_mm).toNat : ℕ) : ℝ) /
            25.4| ≤ 1/20 := by
  refine ⟨refreshPart d ++ scalePart d ++ rotationPart d, ?_, rfl, diagTenths_nearest _⟩
  rw [format_single_display_assoc]
  simp only [physicalPart, String.append_assoc]

def d600 : DisplayInfo :=
  { name := "DISP1", friendly_name := "", x := 0, y := 0, width := 2560, height := 1440,
    width_mm := 600, height_mm := 340, rotation := 0, scale_factor := 1, frequency := 0,
    is_primary := false }

/-- C4 counterexample: at widthMm = 600 and heightMm = 340 the rendered
diagonal is 27.2 inches, not the claimed 27.1: the exact diagonal is
27.151... inches, which rounds up at one decimal. -/
theorem physical_example_cex :
    format_single_display d600 =
        "DISP1\n  Resolution: 2560x1440\n  Position: (0, 0)\n  Physical: 600mm x 340mm (~27.2\")\n" ∧
      ¬ containsSub (format_single_display d600) "(~27.1\")" := by
  have hsq : Nat.sqrt 4756000000 = 68963 := by
    have h1 : 68963 ≤ Nat.sqrt 4756000000 := Nat.le_sqrt.mpr (by norm_num)
    have h2 : Nat.sqrt 4756000000 < 68964 := Nat.sqrt_lt.mpr (by norm_num)
    omega
  have hdt : diagTenths 475600 = 272 := by
    rw [diagTenths, show 10000 * 475600 = 4756000000 from rfl, hsq]
  have hrender : format_single_display d600 =
      "DISP1\n  Resolution: 2560x1440\n  Position: (0, 0)\n  Physical: 600mm x 340mm (~27.2\")\n" := by
    rw [format_single_display, headerPart, resolutionPart, positionPart, physicalPart,
      refreshPart, scalePart, rotationPart]
    norm_num [d600]
    rw [show Int.toNat 475600 = 475600 from rfl, hdt]
    rfl
  refine ⟨hrender, ?_⟩
  rw [hrender, containsSub_iff]
  decide

/-- C5: the Refresh, Scale and Rotation lines are each present exactly when
their own threshold holds, independently of the other two; the Refresh and
Scale values are nearest-integer roundings (of the frequency and of one
hundred times the scale factor), and the Rotation value truncates toward
zero (its magnitude is the floor of the magnitude and the sign is kept). -/
theorem refresh_scale_rotation_spec (d : DisplayInfo) :
    ∃ pre, format_single_display d =
        pre ++ ((if 0 < d.frequency then "  Refresh: " ++ fmtDotZero d.frequency ++ "Hz\n" else "") ++
          ((if d.scale_factor ≠ 1 then
              "  Scale: " ++ fmtDotZero (d.scale_factor * 100) ++ "%\n" else "") ++
            (if d.rotation ≠ 0 then
              "  Rotation: " ++ toString (ratTruncate d.rotation) ++ "°\n" else ""))) ∧
      pre = headerPart d ++ resolutionPart d ++ positionPart d ++ physicalPart d ∧
      (0 < d.frequency → fmtDotZero d.frequency = toString (roundHalfEven d.frequency)) ∧
      |(roundHalfEven d.frequency : ℚ) - d.frequency| ≤ 1/2 ∧
      |(roundHalfEven (d.scale_factor * 100) : ℚ) - d.scale_factor * 100| ≤ 1/2 ∧
      |(ratTruncate d.rotation : ℚ)| ≤ |d.rotation| ∧
      |d.rotation| < |(ratTruncate d.rotation : ℚ)| + 1 ∧
      (0 ≤ d.rotation → 0 ≤ ratTruncate d.rotation) ∧
      (d.rotation ≤ 0 → ratTruncate d.rotation ≤ 0) := by
  refine ⟨headerPart d ++ resolutionPart d ++ positionPart d ++ physicalPart d, ?_, rfl,
    fun h => fmtDotZero_pos d.frequency h, roundHalfEven_close _, roundHalfEven_close _,
    (ratTruncate_trunc d.rotation).1, (ratTruncate_trunc d.rotation).2.1,
    (ratTruncate_trunc d.rotation).2.2.1, (ratTruncate_trunc d.rotation).2.2.2⟩
  rw [format_single_display_assoc]
  simp only [refreshPart, scalePart, rotationPart, String.append_assoc]

def sampleC : DisplayInfo :=
  { name := "DP-1", friendly_name := "Studio", x := 0, y := 0, width := 2560, height := 1440,
    width_mm := 0, height_mm := 0, rotation := 90, scale_factor := 2, frequency := 60,
    is_primary := false }

theorem refresh_scale_rotation_spec_witness :
    fmtDotZero sampleC.frequency = toString (roundHalfEven sampleC.frequency) ∧
      0 ≤ ratTruncate sampleC.rotation := by
  obtain ⟨pre, hdec, hpre, hfmt, hb1, hb2, hm1, hm2, hs1, hs2⟩ :=
    refresh_scale_rotation_spec sampleC
  exact ⟨hfmt (by norm_num [sampleC]), hs1 (by norm_num [sampleC])⟩

/-- The `get_display_info` tool handler (source lines 109-116) with the
enumeration facility's response as an explicit argument: a facility error
is wrapped with the fixed context, a success is the rendered list. -/
def get_display_info (fac : Except String (List DisplayInfo)) : Except String String :=
  match fac with
  | .error e => .error ("Failed to get display info: " ++ e)
  | .ok ds => .ok (format_display_info ds)

/-- The `get_display_at_point` tool handler (source lines 119-133) after
parameter validation, with the facility's response as an explicit argument. -/
def get_display_at_point (x y : Int) (fac : Except String DisplayInfo) : Except String String :=
  match fac with
  | .error e =>
    .error ("Failed to get display at (" ++ toString x ++ ", " ++ toString y ++ "): " ++ e)
  | .ok d =>
    .ok ("Display at (" ++ toString x ++ ", " ++ toString y ++ "):\n" ++ format_single_display d)

/-- The `get_display_by_name` tool handler (source lines 136-146) after
parameter validation, with the facility's response as an explicit argument. -/
def get_display_by_name (name : String) (fac : Except String DisplayInfo) : Except String String :=
  match fac with
  | .error e => .error ("Failed to get display '" ++ name ++ "': " ++ e)
  | .ok d => .ok (format_single_display d)

/-- C6 (amended): on success the point operation's text is exactly the
literal "Display at (x, y):" line built from the queried integers -
whatever the record's own position fields - followed by the record's
single-display rendering. -/
theorem at_point_response_spec (x y : Int) (d : DisplayInfo) :
    get_display_at_point x y (.ok d) =
        .ok ("Display at (" ++ toString x ++ ", " ++ toString y ++ "):\n" ++
          format_single_display d) ∧
      strBeginsWith
        ("Display at (" ++ toString x ++ ", " ++ toString y ++ "):\n" ++
          format_single_display d)
        ("Display at (" ++ toString x ++ ", " ++ toString y ++ "):\n") :=
  ⟨rfl, ⟨format_single_display d, rfl⟩⟩

def dPlain : DisplayInfo :=
  { name := "A", friendly_name := "", x := 10, y := 20, width := 800, height := 600,
    width_mm := 0, height_mm := 0, rotation := 0, scale_factor := 1, frequency := 0,
    is_primary := false }

/-- C6 counterexample: at query point (3, 4) the success text begins with
"Display at (3, 4):", not with the claimed "Display (3, 4):". -/
theorem at_point_response_cex :
    get_display_at_point 3 4 (.ok dPlain) =
        .ok "Display at (3, 4):\nA\n  Resolution: 800x600\n  Position: (10, 20)\n" ∧
      ¬ strBeginsWith "Display at (3, 4):\nA\n  Resolution: 800x600\n  Position: (10, 20)\n"
        "Display (3, 4):\n" := by
  constructor
  · have hr : format_single_display dPlain =
        "A\n  Resolution: 800x600\n  Position: (10, 20)\n" := by
      rw [format_single_display, headerPart, resolutionPart, positionPart, physicalPart,
        refreshPart, scalePart, rotationPart]
      norm_num [dPlain]
      rfl
    have hstep : get_display_at_point 3 4 (.ok dPlain) =
        .ok ("Display at (" ++ toString (3 : ℤ) ++ ", " ++ toString (4 : ℤ) ++ "):\n" ++
          format_single_display dPlain) := rfl
    rw [hstep, hr]
    rfl
  · rw [strBeginsWith_iff]
    decide

/-- C7: a facility failure on any of the three operations produces an error
result and never a success; the message is the operation context followed
by the facility's message verbatim. -/
theorem facility_error_resp (e : String) (x y : Int) (n : String) :
    get_display_info (.error e) = .error ("Failed to get display info: " ++ e) ∧
      get_display_at_point x y (.error e) =
        .error ("Failed to get display at (" ++ toString x ++ ", " ++ toString y ++ "): " ++ e) ∧
      get_display_by_name n (.error e) =
        .error ("Failed to get display '" ++ n ++ "': " ++ e) ∧
      containsSub ("Failed to get display info: " ++ e) e ∧
      containsSub ("Failed to get display at (" ++ toString x ++ ", " ++ toString y ++ "): " ++ e)
        e ∧
      containsSub ("Failed to get display '" ++ n ++ "': " ++ e) e ∧
      (∀ s, get_display_info (.error e) ≠ .ok s) ∧
      (∀ s, get_display_at_point x y (.error e) ≠ .ok s) ∧
      (∀ s, get_display_by_name n (.error e) ≠ .ok s) :=
  ⟨rfl, rfl, rfl,
    ⟨"Failed to get display info: ", "", by rw [String.append_empty]⟩,
    ⟨"Failed to get display at (" ++ toString x ++ ", " ++ toString y ++ "): ", "", by
      rw [String.append_empty]⟩,
    ⟨"Failed to get display '" ++ n ++ "': ", "", by
      rw [String.append_empty]⟩,
    fun _ h => Except.noConfusion h, fun _ h => Except.noConfusion h,
    fun _ h => Except.noConfusion h⟩

theorem facility_error_resp_witness :
    get_display_info (.error "boom") = .error ("Failed to get display info: " ++ "boom") :=
  (facility_error_resp "boom" 3 4 "HDMI-1").1

/-- Modelled from the spec: a raw untyped tool-argument value, as carried by
the transport before parameter validation. The serde/schemars decoding layer
that the `rmcp` attribute macros generate is not part of the repository
source, so it is modelled from the specification's contract for the
ParameterValidator. -/
inductive JsonVal where
  | jnull : JsonVal
  | jbool : Bool → JsonVal
  | jnum : Int → JsonVal
  | jstr : String → JsonVal
  | jarr : List JsonVal → JsonVal
  | jobj : List (String × JsonVal) → JsonVal

/-- First value bound to key `k` in an object's field list. -/
def lookupField (fs : List (String × JsonVal)) (k : String) : Option JsonVal :=
  (fs.find? fun p => p.1 == k).map fun p => p.2

/-- Typed parameters of `get_display_at_point` (source lines 11-17). -/
structure PointParams where
  x : Int
  y : Int

/-- Typed parameters of `get_display_by_name` (source lines 20-24). -/
structure NameParams where
  name : String

/-- Modelled from the spec: decode one field as an `i32`, failing on a wrong
type or an out-of-range number. -/
def decodeI32 (v : JsonVal) : Except String Int :=
  match v with
  | .jnum n => if -2147483648 ≤ n ∧ n < 2147483648 then .ok n else .error "out of range for i32"
  | _ => .error "expected an integer"

/-- Modelled from the spec: validation of `PointParams` from raw arguments -
both fields required, both `i32`; any wrong type or missing field is a
validation error. -/
def decodePointParams (v : JsonVal) : Except String PointParams :=
  match v with
  | .jobj fs =>
    match lookupField fs "x" with
    | none => .error "missing field x"
    | some vx =>
      match decodeI32 vx with
      | .error m => .error m
      | .ok xv =>
        match lookupField fs "y" with
        | none => .error "missing field y"
        | some vy =>
          match decodeI32 vy with
          | .error m => .error m
          | .ok yv => .ok { x := xv, y := yv }
  | _ => .error "expected an object"

/-- Modelled from the spec: validation of `NameParams` from raw arguments. -/
def decodeNameParams (v : JsonVal) : Except String NameParams :=
  match v with
  | .jobj fs =>
    match lookupField fs "name" with
    | none => .error "missing field name"
    | some (.jstr s) => .ok { name := s }
    | some _ => .error "expected a string"
  | _ => .error "expected a string in field name"

/-- A protocol-level error: a validation error raised before any platform
call, or an internal error wrapping a facility failure. -/
inductive ToolError where
  | invalidParams : String → ToolError
  | internal : String → ToolError

/-- The full point operation from raw arguments: validate, then run the
handler. The second component counts facility invocations. -/
def dispatch_at_point (args : JsonVal) (fac : Int → Int → Except String DisplayInfo) :
    Except ToolError String × Nat :=
  match decodePointParams args with
  | .error m => (.error (.invalidParams m), 0)
  | .ok p =>
    match get_display_at_point p.x p.y (fac p.x p.y) with
    | .error e => (.error (.internal e), 1)
    | .ok t => (.ok t, 1)

/-- The full name operation from raw arguments: validate, then run the
handler. The second component counts facility invocations. -/
def dispatch_by_name (args : JsonVal) (fac : String → Except String DisplayInfo) :
    Except ToolError String × Nat :=
  match decodeNameParams args with
  | .error m => (.error (.invalidParams m), 0)
  | .ok p =>
    match get_display_by_name p.name (fac p.name) with
    | .error e => (.error (.internal e), 1)
    | .ok t => (.ok t, 1)

/-- C8: for each operation separately, when validation of that operation's
raw arguments fails, the operation returns a structured validation error,
the facility is never invoked, and the outcome does not depend on the
facility at all. -/
theorem malformed_params_no_facility_call (args : JsonVal) (m m' : String)
    (fac : Int → Int → Except String DisplayInfo) (fac' : String → Except String DisplayInfo) :
    (decodePointParams args = .error m →
      dispatch_at_point args fac = (.error (.invalidParams m), 0)) ∧
      (decodeNameParams args = .error m' →
        dispatch_by_name args fac' = (.error (.invalidParams m'), 0)) := by
  constructor
  · intro hpoint
    rw [dispatch_at_point, hpoint]
  · intro hname
    rw [dispatch_by_name, hname]

theorem malformed_params_no_facility_call_witness :
    dispatch_by_name (.jobj [("x", .jnum 1), ("y", .jnum 2)]) (fun _ => .error "unused") =
        (.error (.invalidParams "missing field name"), 0) ∧
      dispatch_at_point (.jobj [("name", .jstr "a")]) (fun _ _ => .error "unused") =
        (.error (.invalidParams "missing field x"), 0) :=
  ⟨(malformed_params_no_facility_call (.jobj [("x", .jnum 1), ("y", .jnum 2)]) "m"
      "missing field name" (fun _ _ => .error "unused") (fun _ => .error "unused")).2 rfl,
    (malformed_params_no_facility_call (.jobj [("name", .jstr "a")]) "missing field x" "m"
      (fun _ _ => .error "unused") (fun _ => .error "unused")).1 rfl⟩

def dEmpty : DisplayInfo :=
  { name := "", friendly_name := "", x := 0, y := 0, width := 640, height := 480,
    width_mm := 0, height_mm := 0, rotation := 0, scale_factor := 1, frequency := 0,
    is_primary := false }

theorem line_structure_witness :
    ∃ hb rb pb t, format_single_display dEmpty =
        (hb ++ "\n") ++ ((rb ++ "\n") ++ ((pb ++ "\n") ++ t)) ∧ hb = "" := by
  obtain ⟨hb, rb, pb, t, h1, h2, h3⟩ := line_structure dEmpty
  exact ⟨hb, rb, pb, t, h1, h3 rfl rfl rfl⟩
